import Mathlib

/-
Verification of the vscode-copilot-bridge dialect-translation layer.

Shallow embedding conventions
  * JavaScript strings are modelled as lists of characters (`Str`), so that
    every operation (slice, trim, split, concatenation) is structurally
    recursive and computable by the kernel.  `str` injects a Lean string
    literal.
  * `Array.prototype.join('')` is `List.flatten`, `join(sep)` is
    `List.intercalate`.
  * Stateful handlers are embedded as pure functions; the module-level
    auth cache and the process-wide active-request counter are passed and
    returned explicitly (the counter as a trace of increment/decrement
    operations the handler performs).
  * Network effects are abstracted by an outcome parameter: each handler is
    a function of which branch the awaited I/O drove it into, carrying the
    data (body fields, upstream chunks) that branch consumes.
-/

/-- Model of a JavaScript string: a list of characters. -/
abbrev Str := List Char

/-- Injection of a Lean string literal into the model. -/
def str (s : String) : Str := s.data

/-- Model of JavaScript String.prototype.trim: drop whitespace from both ends. -/
def jsTrim (s : Str) : Str :=
  ((s.dropWhile Char.isWhitespace).reverse.dropWhile Char.isWhitespace).reverse

/-- The request headers read by the bridge's auth code (src/http/auth.ts and
the per-route bearer extraction): authorization, x-api-key, x-goog-api-key.
A missing header is none. -/
structure ReqHeaders where
  authorization : Option Str
  xApiKey : Option Str
  xGoogApiKey : Option Str
deriving DecidableEq

/-- The module-level mutable cache of src/http/auth.ts lines 4-5:
cachedToken and cachedAuthHeader. -/
structure AuthCache where
  cachedToken : Str
  cachedAuthHeader : Str
deriving DecidableEq

/-- Embedding of isAuthorized (src/http/auth.ts lines 11-44).  The mutable
module state is passed in and the updated state returned alongside the
boolean.  The source checks, in order: empty configured token (reset cache,
false); cache refresh when the token changed; Authorization header of the
form Bearer-plus-token (slice(7).trim() compared to the token); x-api-key
trimmed; x-goog-api-key trimmed. -/
def isAuthorized (req : ReqHeaders) (token : Str) (cache : AuthCache) :
    Bool × AuthCache :=
  if token = [] then (false, ⟨[], []⟩)
  else
    let cache1 := if token ≠ cache.cachedToken
      then ⟨token, str "Bearer " ++ token⟩ else cache
    let authOk := match req.authorization with
      | some a => (str "Bearer ").isPrefixOf a && (jsTrim (a.drop 7) == token)
      | none => false
    let xApiOk := match req.xApiKey with
      | some x => jsTrim x == token
      | none => false
    let xGoogOk := match req.xGoogApiKey with
      | some x => jsTrim x == token
      | none => false
    (authOk || xApiOk || xGoogOk, cache1)

/-- Embedding of fixBoltArtifactFormat (src/http/formatter.ts, lines 50-98 of
the file paired with auth.ts).  The function's first statement is a bare
return of its argument (line 51), so every repair step below it (attribute
re-spacing, closing-tag insertion, newline normalisation) is unreachable
dead code; observed behaviour is the identity. -/
def fixBoltArtifactFormat (text : Str) : Str := text

/-- A typed content part: an object with a type tag and a text field, as in
the Anthropic message content arrays and the AI-SDK input_text/output_text
parts. -/
structure ContentPart where
  type : Str
  text : Str
deriving DecidableEq

/-- Message content: either a single string payload or a list of typed
parts. -/
inductive MsgContent
  | strContent (s : Str)
  | parts (l : List ContentPart)
deriving DecidableEq

/-- Embedding of the Anthropic adapter's toText (src/http/routes/anthropic.ts
line 176): a string is returned as-is; for an array, only the FIRST element
is consulted, and its text is used only when its type tag is text, else the
empty string. -/
def toText (c : MsgContent) : Str :=
  match c with
  | MsgContent.strContent s => s
  | MsgContent.parts l =>
    match l.head? with
    | some p => if p.type = str "text" then p.text else []
    | none => []

/-- Embedding of extractTextContent (src/http/routes/responses.ts lines
86-95): a string is returned as-is; a part list is filtered to parts tagged
input_text or output_text, their texts joined in order with the empty
separator. -/
def extractTextContent (content : MsgContent) : Str :=
  match content with
  | MsgContent.strContent s => s
  | MsgContent.parts l =>
    List.flatten
      ((l.filter fun p =>
          p.type == str "input_text" || p.type == str "output_text").map
        fun p => p.text)

/-- Embedding of the Gemini adapter's part concatenation
(src/http/routes/gemini.ts line 105): parts whose text field is present and
non-empty are kept, their texts joined with a newline separator. -/
def geminiPartsText (parts : List (Option Str)) : Str :=
  List.intercalate (str "\n")
    ((parts.filter fun p => !(p.getD []).isEmpty).map fun p => p.getD [])

/-- Embedding of the Gemini adapter's role normalisation
(src/http/routes/gemini.ts line 104): a model role becomes assistant; a
missing or empty (falsy) role becomes user; any other role string is passed
through unchanged. -/
def geminiMapRole (role : Option Str) : Str :=
  match role with
  | some r =>
    if r = str "model" then str "assistant"
    else if r = [] then str "user" else r
  | none => str "user"

/-- The two roles of a VS Code LanguageModelChatMessage. -/
inductive LMRole
  | user
  | assistant
deriving DecidableEq

/-- Embedding of the role switch of convertAiSdkMessagesToLM
(src/http/routes/responses.ts lines 100-114): system and user map to User,
assistant to Assistant, and the default clause maps any other role to
User. -/
def convertAiSdkRole (role : Str) : LMRole :=
  if role = str "system" then LMRole.user
  else if role = str "user" then LMRole.user
  else if role = str "assistant" then LMRole.assistant
  else LMRole.user

/-- Usage block of the AI-SDK response (src/http/routes/responses.ts lines
46-50 and 211-215). -/
structure AiSdkUsage where
  input_tokens : Nat
  output_tokens : Nat
  total_tokens : Nat
deriving DecidableEq

/-- Embedding of the usage estimation of handleAiSdkResponse
(src/http/routes/responses.ts lines 180-186 and 211-215): token counts are
Math.ceil(length / 4) of the input text and of the generated output, and the
total is their sum.  In Nat, Math.ceil(n / 4) is (n + 3) / 4. -/
def estimateUsage (inputText fullContent : Str) : AiSdkUsage :=
  let inputTokens := (inputText.length + 3) / 4
  let outputTokens := (fullContent.length + 3) / 4
  ⟨inputTokens, outputTokens, inputTokens + outputTokens⟩

/-- An error envelope as produced by writeErrorResponse: HTTP status, human
message, coarse type tag, machine code, and optional extra parameter (the
reason slot used by the 404/503 model-resolution failures). -/
structure ErrResponse where
  status : Nat
  message : Str
  errType : Str
  code : Str
  param : Option Str
deriving DecidableEq

/-- Embedding of the model-resolution failure branch of handleAiSdkResponse
(src/http/routes/responses.ts lines 137-146): when body.model is truthy
(non-empty) and the language-model API exists, a 404 model_not_found;
otherwise a 503 copilot_unavailable whose reason is
copilot_model_unavailable when the API exists and missing_language_model_api
when it does not. -/
def aiSdkModelFailureResponse (bodyModel : Str) (hasLanguageModels : Bool) :
    ErrResponse :=
  if !bodyModel.isEmpty && hasLanguageModels then
    ⟨404, str "model not found", str "invalid_request_error",
      str "model_not_found", some (str "not_found")⟩
  else
    ⟨503, str "Copilot unavailable", str "server_error",
      str "copilot_unavailable",
      some (if hasLanguageModels then str "copilot_model_unavailable"
            else str "missing_language_model_api")⟩

/-- One mutation of the shared active-request counter state.activeRequests. -/
inductive CounterOp
  | inc
  | dec
deriving DecidableEq

/-- Applies a trace of counter mutations to a counter value. -/
def applyCounterOps (ops : List CounterOp) (n : Int) : Int :=
  ops.foldl
    (fun acc op => match op with
      | CounterOp.inc => acc + 1
      | CounterOp.dec => acc - 1) n

/-- The I/O outcome that drives handleAiSdkResponse after its counter
increment: the body read or LM call may throw, validation may fail, model
resolution may fail, or the LM stream completes with chunks. -/
inductive AiSdkOutcome
  | bodyReadError (msg : Str)
  | invalidPayload
  | modelUnresolved (bodyModel : Str) (hasLanguageModels : Bool)
  | lmRequestError (msg : Str)
  | lmSuccess (inputTexts : List Str) (chunks : List Str)

/-- The response handleAiSdkResponse writes. -/
inductive AiSdkResult
  | errorJson (e : ErrResponse)
  | success (text : Str) (usage : AiSdkUsage)
deriving DecidableEq

/-- Embedding of handleAiSdkResponse (src/http/routes/responses.ts lines
119-231).  state.activeRequests is incremented on entry (line 120) and
decremented in the finally block (line 228); between them the try body
produces: a 500 on a thrown body read, a 400 invalid_payload on failed
validation, the model-resolution failure envelope, a 500 on a thrown LM
request, or the success response whose text is the concatenation of the
streamed chunks and whose usage is estimated over the joined input texts
and that concatenation (lines 181-215). -/
def handleAiSdkResponse (o : AiSdkOutcome) : AiSdkResult × List CounterOp :=
  let result := match o with
    | AiSdkOutcome.bodyReadError msg =>
      AiSdkResult.errorJson
        ⟨500, msg, str "server_error", str "internal_error", none⟩
    | AiSdkOutcome.invalidPayload =>
      AiSdkResult.errorJson
        ⟨400, str "invalid request format", str "invalid_request_error",
          str "invalid_payload", none⟩
    | AiSdkOutcome.modelUnresolved m h =>
      AiSdkResult.errorJson (aiSdkModelFailureResponse m h)
    | AiSdkOutcome.lmRequestError msg =>
      AiSdkResult.errorJson
        ⟨500, msg, str "server_error", str "internal_error", none⟩
    | AiSdkOutcome.lmSuccess inputTexts chunks =>
      let fullContent := List.flatten chunks
      AiSdkResult.success fullContent
        (estimateUsage (List.flatten inputTexts) fullContent)
  (result, [CounterOp.inc, CounterOp.dec])

/-- Embedding of runLMStream (src/http/routes/anthropic.ts lines 96-155) at
the level of parsed upstream events: each upstream data line carries an
optional delta content (none when the chunk has no delta content field); the
generator coalesces a missing content to the empty string and yields the
text only when its length is positive. -/
def runLMStreamYields (chunks : List (Option Str)) : List Str :=
  chunks.filterMap fun oc =>
    let text := oc.getD []
    if 0 < text.length then some text else none

/-- One Anthropic SSE frame written by writeSSE
(src/http/routes/anthropic.ts lines 41-44 and 205-239). -/
inductive SSEEvent
  | messageStart
  | contentBlockStart (text : Str)
  | contentBlockDelta (text : Str)
  | contentBlockStop
  | messageDelta (stopReason : Str)
  | messageStop
deriving DecidableEq

/-- Embedding of the streaming branch of anthropicMessages
(src/http/routes/anthropic.ts lines 205-239): message_start, then
content_block_start with empty text, then for each fragment received from
runLMStream one content_block_delta with exactly that fragment (a falsy
fragment is skipped, line 219), then content_block_stop, message_delta with
stop reason end_turn, message_stop, after which the connection is closed
(res.end, line 239). -/
def anthropicStreamEvents (chunks : List (Option Str)) : List SSEEvent :=
  [SSEEvent.messageStart, SSEEvent.contentBlockStart []]
    ++ ((runLMStreamYields chunks).filterMap fun tokenChunk =>
          if tokenChunk.isEmpty then none
          else some (SSEEvent.contentBlockDelta tokenChunk))
    ++ [SSEEvent.contentBlockStop, SSEEvent.messageDelta (str "end_turn"),
        SSEEvent.messageStop]

/-- Embedding of the buffered branch of anthropicMessages
(src/http/routes/anthropic.ts lines 183-202): runLMFull returns the
upstream's complete message content, which over the same fragment sequence
is the concatenation of every chunk's delta content (a missing content
contributing the empty string), and the single content block carries that
text after fixBoltArtifactFormat (line 188). -/
def anthropicBufferedText (chunks : List (Option Str)) : Str :=
  fixBoltArtifactFormat (List.flatten (chunks.map fun oc => oc.getD []))

/-- The texts carried by the content_block_delta frames of an event
sequence, in order. -/
def deltaTexts (events : List SSEEvent) : List Str :=
  events.filterMap fun e =>
    match e with
    | SSEEvent.contentBlockDelta t => some t
    | _ => none

/-- The I/O outcome that drives anthropicMessages: missing bearer token,
a thrown error caught at the top-level boundary, the buffered branch, or
the streaming branch, each with the upstream fragment sequence. -/
inductive AnthropicOutcome
  | unauthorized
  | caughtError (msg : Str)
  | buffered (chunks : List (Option Str))
  | streaming (chunks : List (Option Str))

/-- The response anthropicMessages writes. -/
inductive AnthropicResult
  | errorJson (e : ErrResponse)
  | bufferedMessage (contentText : Str) (stopReason : Str)
  | sse (events : List SSEEvent)
deriving DecidableEq

/-- Embedding of anthropicMessages (src/http/routes/anthropic.ts lines
157-252).  The counter trace is empty on every path: the function never
references state.activeRequests (the file does not import state), and the
/v1/messages route registration (src/http/server.ts line 157) adds no
counting middleware around it. -/
def anthropicMessages (o : AnthropicOutcome) :
    AnthropicResult × List CounterOp :=
  let result := match o with
    | AnthropicOutcome.unauthorized =>
      AnthropicResult.errorJson
        ⟨401, str "unauthorized", str "invalid_request_error",
          str "unauthorized", none⟩
    | AnthropicOutcome.caughtError msg =>
      AnthropicResult.errorJson ⟨500, msg, str "server_error", [], none⟩
    | AnthropicOutcome.buffered chunks =>
      AnthropicResult.bufferedMessage (anthropicBufferedText chunks)
        (str "end_turn")
    | AnthropicOutcome.streaming chunks =>
      AnthropicResult.sse (anthropicStreamEvents chunks)
  (result, [])

/-- Embedding of URLSearchParams.get over an already-extracted query string:
split on the ampersand, split each pair on the first equals sign, return the
first value whose key matches (percent-decoding is not modelled; no input
used here contains escapes). -/
def searchParamsGet (qs : Str) (name : Str) : Option Str :=
  ((qs.splitOn '&').filterMap fun pair =>
    match pair.splitOn '=' with
    | [] => none
    | k :: vs =>
      if k = name then some (List.intercalate (str "=") vs) else none).head?

/-- Embedding of getBearerToken (src/http/routes/gemini.ts lines 37-56): an
Authorization header of the Bearer form with a non-empty trimmed value wins;
otherwise, when the URL has a query string, its key parameter is returned
when non-empty; otherwise none. -/
def getBearerToken (authorization : Option Str) (url : Str) : Option Str :=
  let fromHeader : Option Str :=
    match authorization with
    | some a =>
      if (str "Bearer ").isPrefixOf a then
        let v := jsTrim (a.drop 7)
        if v.isEmpty then none else some v
      else none
    | none => none
  match fromHeader with
  | some v => some v
  | none =>
    match url.splitOn '?' with
    | [] => none
    | [_] => none
    | _ :: rest =>
      match searchParamsGet (List.intercalate (str "?") rest) (str "key") with
      | some k => if k.isEmpty then none else some k
      | none => none

/-- Outcome of the server-wide auth middleware (src/http/server.ts lines
37-55). -/
inductive AuthGateOutcome
  | tokenRequired
  | unauthorized
  | passed
deriving DecidableEq

/-- Embedding of the auth middleware (src/http/server.ts lines 37-55): the
/health path bypasses auth; a missing configured token yields the
token-required error; otherwise the request passes only when isAuthorized
accepts its headers. -/
def serverAuthGate (req : ReqHeaders) (path : Str) (cfgToken : Str)
    (cache : AuthCache) : AuthGateOutcome :=
  if path = str "/health" then AuthGateOutcome.passed
  else if cfgToken.isEmpty then AuthGateOutcome.tokenRequired
  else if (isAuthorized req cfgToken cache).1 then AuthGateOutcome.passed
  else AuthGateOutcome.unauthorized

/-- Authentication outcome of a Gemini generateContent request. -/
inductive GeminiAuthResult
  | tokenRequired
  | unauthorizedMiddleware
  | unauthorizedHandler
  | accepted (token : Str)
deriving DecidableEq

/-- Composition of the middleware chain a Gemini request traverses
(src/http/server.ts: the auth middleware at lines 37-55 runs before the
Gemini interceptor at lines 58-103, which calls handleGeminiGenerateContent;
the rate-limit check, orthogonal to authentication, is not modelled): first
the server-wide gate over the headers, then the handler's own
getBearerToken, whose none result is the handler's 401
(src/http/routes/gemini.ts lines 78-86). -/
def geminiRequestAuth (req : ReqHeaders) (url : Str) (cfgToken : Str)
    (cache : AuthCache) : GeminiAuthResult :=
  match serverAuthGate req url cfgToken cache with
  | AuthGateOutcome.tokenRequired => GeminiAuthResult.tokenRequired
  | AuthGateOutcome.unauthorized => GeminiAuthResult.unauthorizedMiddleware
  | AuthGateOutcome.passed =>
    match getBearerToken req.authorization url with
    | none => GeminiAuthResult.unauthorizedHandler
    | some t => GeminiAuthResult.accepted t

/-- Helper: every fragment yielded by runLMStream is non-empty, because the
generator only yields texts of positive length. -/
theorem runLMStreamYields_mem_ne_nil (chunks : List (Option Str)) :
    ∀ t ∈ runLMStreamYields chunks, t ≠ [] := by
  intro t ht
  rcases List.mem_filterMap.mp ht with ⟨oc, _, hoc⟩
  by_cases h : 0 < (oc.getD []).length
  · rw [if_pos h] at hoc
    injection hoc with h2
    subst h2
    exact List.ne_nil_of_length_pos h
  · simp [h] at hoc

/-- Helper: on a list of non-empty fragments, the delta writer emits exactly
one content_block_delta per fragment. -/
theorem filterMap_delta_eq_map (l : List Str) (h : ∀ t ∈ l, t ≠ []) :
    (l.filterMap fun tokenChunk =>
        if tokenChunk.isEmpty then none
        else some (SSEEvent.contentBlockDelta tokenChunk))
      = l.map SSEEvent.contentBlockDelta := by
  induction l with
  | nil => rfl
  | cons a l ih =>
    have ha : a ≠ [] := h a (List.mem_cons_self a l)
    simp [List.filterMap_cons, ha]
    simpa using ih fun t ht => h t (List.mem_cons_of_mem a ht)

/-- Helper: dropping the empty-text fragments does not change the
concatenation of the fragment sequence. -/
theorem flatten_runLMStreamYields (chunks : List (Option Str)) :
    List.flatten (runLMStreamYields chunks)
      = List.flatten (chunks.map fun oc => oc.getD []) := by
  induction chunks with
  | nil => rfl
  | cons oc l ih =>
    by_cases h : 0 < (oc.getD []).length
    · simp [runLMStreamYields, List.filterMap_cons, h] at ih ⊢
      exact ih
    · have hnil : oc.getD [] = [] := by
        cases hx : oc.getD [] with
        | nil => rfl
        | cons c cs => rw [hx] at h; simp at h
      simp [runLMStreamYields, List.filterMap_cons, h, hnil] at ih ⊢
      exact ih

/-- C1: for every Anthropic Messages request and every finite sequence of
text fragments delivered by the underlying model, the concatenation, in
order, of the texts carried by the streamed content_block_delta frames
equals the text of the single content block returned by the equivalent
buffered call over the same fragment sequence. -/
theorem anthropic_stream_buffer_equiv (chunks : List (Option Str)) :
    List.flatten (deltaTexts (anthropicStreamEvents chunks))
      = anthropicBufferedText chunks := by
  have hmap :
      deltaTexts ((runLMStreamYields chunks).map SSEEvent.contentBlockDelta)
        = runLMStreamYields chunks := by
    induction runLMStreamYields chunks with
    | nil => rfl
    | cons a l ih => simp [deltaTexts, List.filterMap_cons] at ih ⊢; exact ih
  calc
    List.flatten (deltaTexts (anthropicStreamEvents chunks))
        = List.flatten (runLMStreamYields chunks) := by
          rw [anthropicStreamEvents,
            filterMap_delta_eq_map _ (runLMStreamYields_mem_ne_nil chunks)]
          simp only [deltaTexts, List.filterMap_append] at hmap ⊢
          simp [deltaTexts] at hmap
          simp [hmap, List.filterMap_cons]
    _ = List.flatten (chunks.map fun oc => oc.getD []) :=
          flatten_runLMStreamYields chunks
    _ = anthropicBufferedText chunks := rfl

/-- C2: the streaming branch of the Anthropic adapter emits exactly, in this
order, one message_start, one content_block_start with empty text, one
content_block_delta per fragment received from the model stream carrying
exactly that fragment's text (never re-split or re-batched), one
content_block_stop, one message_delta carrying the end_turn stop reason, and
one message_stop, after which the connection is closed. -/
theorem anthropic_stream_event_order (chunks : List (Option Str)) :
    anthropicStreamEvents chunks
      = [SSEEvent.messageStart, SSEEvent.contentBlockStart []]
        ++ (runLMStreamYields chunks).map SSEEvent.contentBlockDelta
        ++ [SSEEvent.contentBlockStop, SSEEvent.messageDelta (str "end_turn"),
            SSEEvent.messageStop] := by
  rw [anthropicStreamEvents,
    filterMap_delta_eq_map _ (runLMStreamYields_mem_ne_nil chunks)]

/-- C3 counterexample: a request accepted by the Anthropic adapter (here a
streaming request with one fragment) performs no counter mutation at all:
its trace contains zero increments, refuting the claim that every adapter
increments the active-request counter exactly once at acceptance. -/
theorem anthropic_counter_not_incremented :
    (anthropicMessages (AnthropicOutcome.streaming [some (str "hi")])).2 = []
    ∧ ¬ ((anthropicMessages
          (AnthropicOutcome.streaming [some (str "hi")])).2).count
            CounterOp.inc = 1 := by
  exact ⟨rfl, by decide⟩

/-- C3 amended: the AI-SDK responses adapter increments the counter exactly
once at acceptance and decrements it exactly once on every exit path —
success, validation failure, model-resolution failure, or thrown exception —
so the counter returns to its pre-request value; the Anthropic adapter never
touches the counter (its trace is empty on every path), so the counter also
equals its pre-request value after its responses, but it is not incremented
at acceptance. -/
theorem counter_balanced_amended :
    (∀ o : AiSdkOutcome,
      ((handleAiSdkResponse o).2).count CounterOp.inc = 1
      ∧ ((handleAiSdkResponse o).2).count CounterOp.dec = 1
      ∧ ∀ n : Int, applyCounterOps ((handleAiSdkResponse o).2) n = n)
    ∧ (∀ o : AnthropicOutcome,
      (anthropicMessages o).2 = []
      ∧ ∀ n : Int, applyCounterOps ((anthropicMessages o).2) n = n) := by
  constructor
  · intro o
    refine ⟨?_, ?_, fun n => ?_⟩
    · show List.count CounterOp.inc [CounterOp.inc, CounterOp.dec] = 1
      decide
    · show List.count CounterOp.dec [CounterOp.inc, CounterOp.dec] = 1
      decide
    · show applyCounterOps [CounterOp.inc, CounterOp.dec] n = n
      simp [applyCounterOps]
  · intro o
    exact ⟨rfl, fun n => rfl⟩

/-- C4: when model resolution fails in the AI-SDK responses adapter, a
caller-named (non-empty) model with the language-model capability present
yields a 404 with code model_not_found; an absent capability yields a 503
with code copilot_unavailable and a reason that is copilot_model_unavailable
or missing_language_model_api. -/
theorem aiSdk_model_failure_responses (bodyModel : Str) (hasLM : Bool) :
    (bodyModel ≠ [] → hasLM = true →
      aiSdkModelFailureResponse bodyModel hasLM
        = ⟨404, str "model not found", str "invalid_request_error",
            str "model_not_found", some (str "not_found")⟩)
    ∧ (hasLM = false →
      (aiSdkModelFailureResponse bodyModel hasLM).status = 503
      ∧ (aiSdkModelFailureResponse bodyModel hasLM).code
          = str "copilot_unavailable"
      ∧ ((aiSdkModelFailureResponse bodyModel hasLM).param
            = some (str "copilot_model_unavailable")
         ∨ (aiSdkModelFailureResponse bodyModel hasLM).param
            = some (str "missing_language_model_api"))) := by
  constructor
  · intro hne hlm
    have : bodyModel.isEmpty = false := by
      cases bodyModel with
      | nil => exact absurd rfl hne
      | cons c cs => rfl
    simp [aiSdkModelFailureResponse, this, hlm]
  · intro hlm
    subst hlm
    simp [aiSdkModelFailureResponse]

/-- Witness for C4 at concrete inputs: model gpt-4o with the capability
present gives the 404 envelope; with the capability absent the status is
503. -/
theorem aiSdk_model_failure_responses_witness :
    aiSdkModelFailureResponse (str "gpt-4o") true
      = ⟨404, str "model not found", str "invalid_request_error",
          str "model_not_found", some (str "not_found")⟩
    ∧ (aiSdkModelFailureResponse (str "gpt-4o") false).status = 503 := by
  exact ⟨(aiSdk_model_failure_responses (str "gpt-4o") true).1
          (by decide) rfl,
        ((aiSdk_model_failure_responses (str "gpt-4o") false).2 rfl).1⟩

/-- C5 counterexample: the Gemini adapter passes the unrecognized role tool
through unchanged instead of normalizing it to user, refuting the claim that
every adapter maps unrecognized roles to user. -/
theorem gemini_unrecognized_role_passthrough :
    geminiMapRole (some (str "tool")) = str "tool"
    ∧ geminiMapRole (some (str "tool")) ≠ str "user" := by
  decide

/-- C5 amended: the Gemini adapter remaps the model role to assistant and
defaults a missing or empty role to user, but passes any other unrecognized
role through unchanged; the AI-SDK adapter maps assistant to assistant and
every other role (recognized or not) to user. -/
theorem role_mapping_amended :
    geminiMapRole (some (str "model")) = str "assistant"
    ∧ geminiMapRole none = str "user"
    ∧ geminiMapRole (some []) = str "user"
    ∧ (∀ r : Str, r ≠ str "model" → r ≠ [] → geminiMapRole (some r) = r)
    ∧ convertAiSdkRole (str "assistant") = LMRole.assistant
    ∧ (∀ r : Str, r ≠ str "assistant" → convertAiSdkRole r = LMRole.user) := by
  refine ⟨by decide, by decide, by decide, ?_, by decide, ?_⟩
  · intro r h1 h2
    simp [geminiMapRole, h1, h2]
  · intro r h
    simp [convertAiSdkRole, h]

/-- Witness for C5 amended at concrete inputs: the Gemini adapter passes the
unrecognized role function through unchanged, and the AI-SDK adapter maps
the system role to user. -/
theorem role_mapping_amended_witness :
    geminiMapRole (some (str "function")) = str "function"
    ∧ convertAiSdkRole (str "system") = LMRole.user := by
  exact ⟨role_mapping_amended.2.2.2.1 (str "function") (by decide) (by decide),
        role_mapping_amended.2.2.2.2.2 (str "system") (by decide)⟩

/-- C6: evaluation of the full middleware chain at the failing input — a
Gemini generateContent request whose only credential is a valid key query
parameter.  The server-wide auth middleware, whose isAuthorized check reads
only the three headers and never the URL, rejects the request with 401
before the Gemini handler runs, even though the handler's own getBearerToken
would have extracted exactly the configured token from that URL.  This
contradicts the documented acceptance of the key query parameter. -/
theorem gemini_query_key_rejected :
    geminiRequestAuth ⟨none, none, none⟩
        (str "/v1/models/gemini-2.5-pro:generateContent?key=secret")
        (str "secret") ⟨[], []⟩
      = GeminiAuthResult.unauthorizedMiddleware
    ∧ getBearerToken none
        (str "/v1/models/gemini-2.5-pro:generateContent?key=secret")
      = some (str "secret")
    ∧ geminiRequestAuth ⟨some (str "Bearer secret"), none, none⟩
        (str "/v1/models/gemini-2.5-pro:generateContent?key=other")
        (str "secret") ⟨[], []⟩
      = GeminiAuthResult.accepted (str "secret") := by
  decide

/-- C7 counterexample: an Anthropic message whose content is a list of two
text parts is reduced to the first part's text alone, not to the
concatenation of both, refuting the claim that every adapter concatenates
all textual parts in list order. -/
theorem anthropic_first_part_only :
    toText (MsgContent.parts
        [⟨str "text", str "a"⟩, ⟨str "text", str "b"⟩]) = str "a"
    ∧ toText (MsgContent.parts
        [⟨str "text", str "a"⟩, ⟨str "text", str "b"⟩])
      ≠ str "a" ++ str "b" := by
  decide

/-- C7 amended: the AI-SDK adapter accepts a single string payload as-is and
concatenates, in list order, the texts of parts tagged input_text or
output_text while silently dropping other parts; the Anthropic adapter
accepts a single string as-is but, for a part list, consults only the first
part, yielding its text when tagged text and the empty string otherwise; the
Gemini adapter joins the present non-empty part texts with newline
separators. -/
theorem content_extraction_amended :
    (∀ s : Str, extractTextContent (MsgContent.strContent s) = s)
    ∧ (∀ (p : ContentPart) (ps : List ContentPart),
        extractTextContent (MsgContent.parts (p :: ps))
          = (if p.type = str "input_text" ∨ p.type = str "output_text"
             then p.text else [])
            ++ extractTextContent (MsgContent.parts ps))
    ∧ (∀ s : Str, toText (MsgContent.strContent s) = s)
    ∧ (∀ (p : ContentPart) (ps : List ContentPart),
        toText (MsgContent.parts (p :: ps))
          = if p.type = str "text" then p.text else [])
    ∧ geminiPartsText [some (str "a"), none, some (str "b")]
        = str "a" ++ str "\n" ++ str "b" := by
  refine ⟨fun s => rfl, ?_, fun s => rfl, fun p ps => rfl, by decide⟩
  intro p ps
  by_cases h : p.type = str "input_text" ∨ p.type = str "output_text"
  · rcases h with h | h <;>
      simp [extractTextContent, List.filter_cons, h]
  · push_neg at h
    simp [extractTextContent, List.filter_cons, h.1, h.2]

/-- C8: the output sanitizer fixBoltArtifactFormat is idempotent, and it is
the identity on every input — in particular on every input containing no
targeted malformed boltArtifact or boltAction tags — because its first
statement returns the argument unchanged. -/
theorem fixBoltArtifactFormat_idempotent_identity :
    ∀ x : Str, fixBoltArtifactFormat (fixBoltArtifactFormat x)
        = fixBoltArtifactFormat x
      ∧ fixBoltArtifactFormat x = x :=
  fun _ => ⟨rfl, rfl⟩

/-- C9: for every successful AI-SDK responses call, usage.input_tokens is
the ceiling of the concatenated input text's character count divided by 4,
usage.output_tokens is the ceiling of the output text's character count
divided by 4, and usage.total_tokens is their sum; all counts are Nat, hence
non-negative.  The two inequalities per count state exactly that the count
is that ceiling. -/
theorem usage_estimate_spec (inputTexts : List Str) (fullContent : Str) :
    (estimateUsage (List.flatten inputTexts) fullContent).total_tokens
      = (estimateUsage (List.flatten inputTexts) fullContent).input_tokens
        + (estimateUsage (List.flatten inputTexts) fullContent).output_tokens
    ∧ (List.flatten inputTexts).length
        ≤ 4 * (estimateUsage (List.flatten inputTexts) fullContent).input_tokens
    ∧ 4 * (estimateUsage (List.flatten inputTexts) fullContent).input_tokens
        < (List.flatten inputTexts).length + 4
    ∧ fullContent.length
        ≤ 4 * (estimateUsage (List.flatten inputTexts) fullContent).output_tokens
    ∧ 4 * (estimateUsage (List.flatten inputTexts) fullContent).output_tokens
        < fullContent.length + 4 := by
  refine ⟨rfl, ?_, ?_, ?_, ?_⟩ <;> simp [estimateUsage] <;> omega

/-- C10: the boolean isAuthorized returns depends only on the request's
headers and the token argument; two calls with the same arguments but
different module-level cache states (cachedToken, cachedAuthHeader) return
the same result. -/
theorem isAuthorized_cache_independent (req : ReqHeaders) (token : Str)
    (c1 c2 : AuthCache) :
    (isAuthorized req token c1).1 = (isAuthorized req token c2).1 := by
  by_cases h : token = [] <;> simp [isAuthorized, h]
